import Mathlib

/-!
Verification of the EigenLVR backend API (`backend/server.py`).

Modelling conventions for the shallow embedding:

* Python `float` values are modelled as exact rationals (`ℚ`); Python
  `round` is modelled as round-half-to-even on the exact value
  (`roundHalfEven`, `pyRound`).
* Every call into the `random` module is modelled as reading one value
  from an explicit per-request draw record; theorems that depend on a
  draw's range carry the range of the corresponding `random.randint` /
  `random.uniform` / `random.choice` call as a hypothesis (`.valid`).
* `datetime` instants are modelled by `PyDateTime` (seconds since the
  Unix epoch plus a microsecond part).  All `datetime.now()` /
  `datetime.utcnow()` calls made while serving a single request are
  modelled as returning the same instant `now`.
* The Mongo database is modelled by `Store`, a record of the collections
  the handlers could touch.  Handlers receive it explicitly; a handler
  whose Python body never reads the database simply ignores it.
* A handler that can surface an HTTP error is modelled with
  `Except HTTPError`; handlers with no failure path return plainly.
-/

/-- Left-pad the decimal representation of `n` with zeros to width `w`. -/
def padZeros (w : ℕ) (n : ℕ) : String :=
  String.mk (List.replicate (w - (toString n).length) '0') ++ toString n

/-- The Python f-string `0x` + hex of `n` + 23 trailing zeros used for all
generated addresses and pool identifiers in the source. -/
def pyHexAddr (n : ℕ) : String :=
  "0x" ++ String.mk (Nat.toDigits 16 n) ++ String.mk (List.replicate 23 '0')

/-- Insert a comma after every third character, working over a reversed
digit list (helper for Python's thousands-separating number format). -/
def commaGroupRev : List Char → List Char
  | a :: b :: c :: d :: rest => a :: b :: c :: ',' :: commaGroupRev (d :: rest)
  | l => l

/-- Python's comma-grouped integer format (the `:,` format specifier). -/
def pyCommaGrouped (n : ℕ) : String :=
  String.mk ((commaGroupRev (Nat.toDigits 10 n).reverse).reverse)

/-- Round to the nearest integer, ties to even: the rounding Python's
built-in `round` applies. -/
def roundHalfEven (x : ℚ) : ℤ :=
  if x - ⌊x⌋ < 1/2 then ⌊x⌋
  else if 1/2 < x - ⌊x⌋ then ⌊x⌋ + 1
  else if ⌊x⌋ % 2 = 0 then ⌊x⌋ else ⌊x⌋ + 1

/-- Python `round(x, k)` on the exact rational value. -/
def pyRound (k : ℕ) (x : ℚ) : ℚ := (roundHalfEven (x * 10 ^ k) : ℚ) / 10 ^ k

/-- `str()` of a Python float scaled by 1000: `n` is the value times 1000.
Trailing zeros of the fractional part are dropped, but at least one
fractional digit is always printed, as in Python's shortest float repr. -/
def pyFloatStrZ (n : ℤ) : String :=
  (if n < 0 then "-" else "") ++
  toString (n.natAbs / 1000) ++ "." ++
  (if n.natAbs % 1000 % 100 = 0 then toString (n.natAbs % 1000 / 100)
   else if n.natAbs % 1000 % 10 = 0 then padZeros 2 (n.natAbs % 1000 / 10)
   else padZeros 3 (n.natAbs % 1000))

/-- `str()` of a Python float whose value is an integer multiple of 1/1000
(every float the source stringifies is first rounded to at most three
decimal places). -/
def pyFloatStr (x : ℚ) : String := pyFloatStrZ (roundHalfEven (x * 1000))

/-- An instant as Python's `datetime` tracks it: whole seconds since the
Unix epoch together with a microsecond component. -/
structure PyDateTime where
  secs : ℤ
  micro : ℕ
deriving DecidableEq

/-- `t - timedelta(minutes=m)`: whole minutes leave microseconds alone. -/
def PyDateTime.subMinutes (t : PyDateTime) (m : ℕ) : PyDateTime :=
  ⟨t.secs - 60 * m, t.micro⟩

/-- Proleptic Gregorian civil date (year, month, day) from a day count
relative to 1970-01-01 (Howard Hinnant's `civil_from_days`). -/
def civilFromDays (z0 : ℤ) : ℤ × ℤ × ℤ :=
  let z := z0 + 719468
  let era := Int.fdiv z 146097
  let doe := z - era * 146097
  let yoe := (doe - doe / 1460 + doe / 36524 - doe / 146096) / 365
  let y := yoe + era * 400
  let doy := doe - (365 * yoe + yoe / 4 - yoe / 100)
  let mp := (5 * doy + 2) / 153
  let d := doy - (153 * mp + 2) / 5 + 1
  let m := mp + (if mp < 10 then 3 else -9)
  (if m ≤ 2 then y + 1 else y, m, d)

/-- Format the date and time-of-day of `t`, with `sep` between them. -/
def fmtDateTime (t : PyDateTime) (sep : String) : String :=
  match civilFromDays (Int.fdiv t.secs 86400) with
  | (y, m, d) =>
    padZeros 4 y.toNat ++ "-" ++ padZeros 2 m.toNat ++ "-" ++ padZeros 2 d.toNat ++ sep ++
    padZeros 2 ((Int.emod t.secs 86400).toNat / 3600) ++ ":" ++
    padZeros 2 ((Int.emod t.secs 86400).toNat % 3600 / 60) ++ ":" ++
    padZeros 2 ((Int.emod t.secs 86400).toNat % 60)

/-- `strftime` with the `%Y-%m-%d %H:%M:%S` pattern the source uses for
auction timestamps. -/
def strftimeYmdHMS (t : PyDateTime) : String := fmtDateTime t " "

/-- `datetime.isoformat()`: `T` separator, microseconds printed only when
nonzero. -/
def isoformat (t : PyDateTime) : String :=
  fmtDateTime t "T" ++ (if t.micro = 0 then "" else "." ++ padZeros 6 t.micro)

/-- `AuctionRecord` as declared in the source: every field is merely
type-annotated, with defaults for `id` (a fresh uuid) and `status`; no
field carries a value constraint such as nonnegativity. -/
structure AuctionRecord where
  id : String
  poolId : String
  winner : String
  winningBid : String
  totalBids : ℤ
  timestamp : String
  status : String
  blockNumber : ℤ
deriving DecidableEq

/-- `PoolPerformance` as declared in the source. -/
structure PoolPerformance where
  id : String
  name : String
  poolId : String
  tvl : String
  lvrReduction : ℚ
  rewardsDistributed : String
  lastUpdated : PyDateTime
deriving DecidableEq

/-- `AVSOperator` as declared in the source. -/
structure AVSOperator where
  id : String
  address : String
  stake : String
  status : String
  tasksCompleted : ℤ
  reputation : ℚ
  lastSeen : PyDateTime
deriving DecidableEq

/-- `AuctionSummary` as declared in the source. -/
structure AuctionSummary where
  activeAuctions : ℕ
  totalMEVRecovered : String
  totalLPRewards : String
  avsOperatorCount : ℕ
deriving DecidableEq

/-- The Mongo database the handlers could read, as the collections of
domain records the spec's Record Store holds.  The source only ever
touches `db.auctions` (and a status-check collection not relevant to any
claim); the remaining collections let store-contents claims be stated. -/
structure Store where
  auctions : List AuctionRecord
  operators : List AVSOperator
  pools : List PoolPerformance
deriving DecidableEq

/-- The store with no records at all. -/
def Store.empty : Store := ⟨[], [], []⟩

/-- An HTTP error as FastAPI surfaces it (`HTTPException` or a request
validation failure). -/
structure HTTPError where
  status_code : ℕ
  detail : String
deriving DecidableEq

/-- The random draws `get_auction_summary` makes, in source order:
`random.randint(0, 5)`, `random.uniform(50.0, 200.0)`,
`random.randint(8, 15)`. -/
structure SummaryDraws where
  active_auctions : ℕ
  total_mev_u : ℚ
  operator_count : ℕ

/-- Ranges of the three random calls in `get_auction_summary`. -/
def SummaryDraws.valid (d : SummaryDraws) : Prop :=
  d.active_auctions ≤ 5 ∧ 50 ≤ d.total_mev_u ∧ d.total_mev_u ≤ 200 ∧
  8 ≤ d.operator_count ∧ d.operator_count ≤ 15

/-- `total_mev = round(random.uniform(50.0, 200.0), 2)`. -/
def summaryMev (d : SummaryDraws) : ℚ := pyRound 2 d.total_mev_u

/-- `total_rewards = round(total_mev * 0.85, 2)` (85% goes to LPs). -/
def summaryRewards (d : SummaryDraws) : ℚ := pyRound 2 (summaryMev d * (85/100))

/-- `GET /api/auctions/summary`: the handler builds the summary from fresh
random draws alone; the database is never consulted (the source's unused
`base_time = datetime.now()` binding is dropped). -/
def get_auction_summary (_db : Store) (d : SummaryDraws) : AuctionSummary :=
  { activeAuctions := d.active_auctions
    totalMEVRecovered := pyFloatStr (summaryMev d)
    totalLPRewards := pyFloatStr (summaryRewards d)
    avsOperatorCount := d.operator_count }

/-- The random draws one iteration of the `get_recent_auctions` loop
makes, in source order, together with the uuid pydantic generates for
the record's `id` default. -/
structure RecentDraw where
  pool_id : ℕ
  winner : ℕ
  winning_bid_u : ℚ
  total_bids : ℕ
  minutes_ago : ℕ
  block_number : ℕ
  uuid : String

/-- Ranges of the random calls in one `get_recent_auctions` iteration. -/
def RecentDraw.valid (d : RecentDraw) : Prop :=
  100000000 ≤ d.pool_id ∧ d.pool_id ≤ 999999999 ∧
  100000000 ≤ d.winner ∧ d.winner ≤ 999999999 ∧
  1/10 ≤ d.winning_bid_u ∧ d.winning_bid_u ≤ 5 ∧
  3 ≤ d.total_bids ∧ d.total_bids ≤ 12 ∧
  5 ≤ d.minutes_ago ∧ d.minutes_ago ≤ 1440 ∧
  18500000 ≤ d.block_number ∧ d.block_number ≤ 18600000

/-- One loop iteration of `get_recent_auctions`: build an `AuctionRecord`
from fresh draws, with `status` left at its `"completed"` default. -/
def mkRecentAuction (now : PyDateTime) (d : RecentDraw) : AuctionRecord :=
  { id := d.uuid
    poolId := pyHexAddr d.pool_id
    winner := pyHexAddr d.winner
    winningBid := pyFloatStr (pyRound 3 d.winning_bid_u)
    totalBids := d.total_bids
    timestamp := strftimeYmdHMS (now.subMinutes d.minutes_ago)
    status := "completed"
    blockNumber := d.block_number }

/-- `GET /api/auctions/recent`: ten freshly generated records, then
`sorted(..., key=lambda x: x.timestamp, reverse=True)` — a stable sort,
descending in the timestamp string. -/
def get_recent_auctions (_db : Store) (now : PyDateTime) (dr : ℕ → RecentDraw) :
    List AuctionRecord :=
  ((List.range 10).map fun i => mkRecentAuction now (dr i)).mergeSort
    (fun a b => decide (b.timestamp ≤ a.timestamp))

/-- The fixed pool-name list in `get_pool_performance`. -/
def pool_names : List String := ["ETH/USDC", "ETH/USDT", "WBTC/ETH", "DAI/USDC", "LINK/ETH"]

/-- The random draws one iteration of the `get_pool_performance` loop
makes, plus the pydantic defaults (`id` uuid, `lastUpdated`). -/
structure PoolDraw where
  pool_id : ℕ
  tvl : ℕ
  lvr_u : ℚ
  rewards_u : ℚ
  uuid : String

/-- Ranges of the random calls in one `get_pool_performance` iteration. -/
def PoolDraw.valid (d : PoolDraw) : Prop :=
  100000000 ≤ d.pool_id ∧ d.pool_id ≤ 999999999 ∧
  1000000 ≤ d.tvl ∧ d.tvl ≤ 50000000 ∧
  1/2 ≤ d.lvr_u ∧ d.lvr_u ≤ 17/2 ∧
  5 ≤ d.rewards_u ∧ d.rewards_u ≤ 25

/-- One loop iteration of `get_pool_performance`. -/
def mkPoolPerformance (now : PyDateTime) (name : String) (d : PoolDraw) : PoolPerformance :=
  { id := d.uuid
    name := name
    poolId := pyHexAddr d.pool_id
    tvl := pyCommaGrouped d.tvl
    lvrReduction := pyRound 1 d.lvr_u
    rewardsDistributed := pyFloatStr (pyRound 2 d.rewards_u)
    lastUpdated := now }

/-- `GET /api/pools/performance`: one record per fixed pool name, all
from fresh draws; the database is never consulted. -/
def get_pool_performance (_db : Store) (now : PyDateTime) (dp : ℕ → PoolDraw) :
    List PoolPerformance :=
  List.zipWith (fun i name => mkPoolPerformance now name (dp i))
    (List.range pool_names.length) pool_names

/-- The weighted status list `random.choice` picks from in
`get_avs_operators`. -/
def operatorStatusChoices : List String := ["active", "active", "active", "inactive"]

/-- The random draws one iteration of the `get_avs_operators` loop makes,
plus the pydantic defaults (`id` uuid, `lastSeen`). -/
structure OpDraw where
  address : ℕ
  stake : ℕ
  status_choice : Fin 4
  tasks_completed : ℕ
  reputation_u : ℚ
  uuid : String

/-- Ranges of the random calls in one `get_avs_operators` iteration. -/
def OpDraw.valid (d : OpDraw) : Prop :=
  100000000 ≤ d.address ∧ d.address ≤ 999999999 ∧
  1000 ≤ d.stake ∧ d.stake ≤ 10000 ∧
  50 ≤ d.tasks_completed ∧ d.tasks_completed ≤ 500 ∧
  7/10 ≤ d.reputation_u ∧ d.reputation_u ≤ 1

/-- One loop iteration of `get_avs_operators`. -/
def mkOperator (now : PyDateTime) (d : OpDraw) : AVSOperator :=
  { id := d.uuid
    address := pyHexAddr d.address
    stake := toString d.stake
    status := operatorStatusChoices.get d.status_choice
    tasksCompleted := d.tasks_completed
    reputation := pyRound 2 d.reputation_u
    lastSeen := now }

/-- `GET /api/operators`: twelve freshly generated operators; the
database is never consulted. -/
def get_avs_operators (_db : Store) (now : PyDateTime) (dO : ℕ → OpDraw) :
    List AVSOperator :=
  (List.range 12).map fun i => mkOperator now (dO i)

/-- One participant entry of the auction detail view. -/
structure Participant where
  address : String
  bid : String
  timestamp : String
deriving DecidableEq

/-- The auction detail view `get_auction_details` returns. -/
structure AuctionDetails where
  id : String
  poolId : String
  status : String
  startTime : String
  endTime : String
  winner : String
  winningBid : String
  totalBids : ℕ
  participants : List Participant
  lvrAmount : String
  gasUsed : ℕ
  blockNumber : ℕ
deriving DecidableEq

/-- The random draws one participant entry makes, in source order. -/
structure PartDraw where
  address : ℕ
  bid_u : ℚ
  minutes_ago : ℕ

/-- Ranges of the random calls for one participant entry. -/
def PartDraw.valid (p : PartDraw) : Prop :=
  100000000 ≤ p.address ∧ p.address ≤ 999999999 ∧
  1/2 ≤ p.bid_u ∧ p.bid_u ≤ 4 ∧
  1 ≤ p.minutes_ago ∧ p.minutes_ago ≤ 4

/-- The random draws `get_auction_details` makes. -/
structure DetailDraws where
  pool_id : ℕ
  winner : ℕ
  winning_bid_u : ℚ
  total_bids : ℕ
  num_participants : ℕ
  parts : ℕ → PartDraw
  lvr_u : ℚ
  gas : ℕ
  block : ℕ

/-- Ranges of the random calls in `get_auction_details`. -/
def DetailDraws.valid (d : DetailDraws) : Prop :=
  100000000 ≤ d.pool_id ∧ d.pool_id ≤ 999999999 ∧
  100000000 ≤ d.winner ∧ d.winner ≤ 999999999 ∧
  1 ≤ d.winning_bid_u ∧ d.winning_bid_u ≤ 5 ∧
  5 ≤ d.total_bids ∧ d.total_bids ≤ 15 ∧
  3 ≤ d.num_participants ∧ d.num_participants ≤ 8 ∧
  (∀ i, i < d.num_participants → (d.parts i).valid) ∧
  2 ≤ d.lvr_u ∧ d.lvr_u ≤ 10 ∧
  150000 ≤ d.gas ∧ d.gas ≤ 300000 ∧
  18500000 ≤ d.block ∧ d.block ≤ 18600000

/-- One participant entry, generated from its draws. -/
def mkParticipant (now : PyDateTime) (p : PartDraw) : Participant :=
  { address := pyHexAddr p.address
    bid := pyFloatStr (pyRound 3 p.bid_u)
    timestamp := isoformat (now.subMinutes p.minutes_ago) }

/-- The mock detail record `get_auction_details` builds: `auction_id` is
echoed back; every other field comes from fresh draws.  The participant
list is emitted in generation order. -/
def detailResult (_db : Store) (auction_id : String) (now : PyDateTime)
    (d : DetailDraws) : AuctionDetails :=
  { id := auction_id
    poolId := pyHexAddr d.pool_id
    status := "completed"
    startTime := isoformat (now.subMinutes 5)
    endTime := isoformat now
    winner := pyHexAddr d.winner
    winningBid := pyFloatStr (pyRound 3 d.winning_bid_u)
    totalBids := d.total_bids
    participants := (List.range d.num_participants).map fun i => mkParticipant now (d.parts i)
    lvrAmount := pyFloatStr (pyRound 3 d.lvr_u)
    gasUsed := d.gas
    blockNumber := d.block }

/-- `GET /api/auctions/(auction_id)`: the handler has no lookup and no
failure path; it always answers with the mock detail record. -/
def get_auction_details (db : Store) (auction_id : String) (now : PyDateTime)
    (d : DetailDraws) : Except HTTPError AuctionDetails :=
  Except.ok (detailResult db auction_id now d)

/-- The request body of `POST /api/auctions` before pydantic validation:
each declared field either present or absent. -/
structure AuctionCreateRequest where
  id : Option String
  poolId : Option String
  winner : Option String
  winningBid : Option String
  totalBids : Option ℤ
  timestamp : Option String
  status : Option String
  blockNumber : Option ℤ
deriving DecidableEq

/-- Pydantic validation of an `AuctionRecord` body, exactly as the model
declares it: the six fields without defaults must be present (else
FastAPI answers 422 before the handler runs); `id` and `status` fall back
to their defaults.  No field value is otherwise constrained — in
particular `totalBids` may be any integer. -/
def parseAuctionRecord (uuidDraw : String) (req : AuctionCreateRequest) :
    Except HTTPError AuctionRecord :=
  match req.poolId, req.winner, req.winningBid, req.totalBids, req.timestamp, req.blockNumber with
  | some p, some w, some wb, some tb, some ts, some bn =>
      Except.ok
        { id := req.id.getD uuidDraw
          poolId := p
          winner := w
          winningBid := wb
          totalBids := tb
          timestamp := ts
          status := (req.status).getD "completed"
          blockNumber := bn }
  | _, _, _, _, _, _ => Except.error { status_code := 422, detail := "Field required" }

/-- The body `POST /api/auctions` answers with on success. -/
structure CreateResponse where
  id : String
  message : String
deriving DecidableEq

/-- `POST /api/auctions`: validate the body, insert the record into
`db.auctions`, and acknowledge.  Returns the store after the request
alongside the response. -/
def create_auction (db : Store) (uuidDraw insertedId : String)
    (req : AuctionCreateRequest) : Store × Except HTTPError CreateResponse :=
  match parseAuctionRecord uuidDraw req with
  | Except.error e => (db, Except.error e)
  | Except.ok r =>
      ({ db with auctions := db.auctions ++ [r] },
       Except.ok { id := insertedId, message := "Auction created successfully" })

/-- The fixed services object of the health endpoint. -/
structure HealthServices where
  database : String
  avs : String
  price_oracle : String
deriving DecidableEq

/-- The body `GET /api/health` answers with. -/
structure HealthResponse where
  status : String
  timestamp : String
  version : String
  services : HealthServices
deriving DecidableEq

/-- `GET /api/health`: a constant body apart from the current time; no
collaborator is consulted. -/
def health_check (_db : Store) (utcnow : PyDateTime) : HealthResponse :=
  { status := "healthy"
    timestamp := isoformat utcnow
    version := "1.0.0"
    services := { database := "connected", avs := "operational", price_oracle := "active" } }

/-- A concrete, in-range draw record for the summary endpoint. -/
def cSummaryDraws : SummaryDraws := ⟨3, 150, 12⟩

/-- A second concrete, in-range draw record for the summary endpoint. -/
def cSummaryDraws2 : SummaryDraws := ⟨1, 120, 10⟩

/-- An active operator record for the C4 scenario store. -/
def exampleOperator (i : String) : AVSOperator :=
  { id := i, address := "0x" ++ i, stake := "5000", status := "active",
    tasksCompleted := 100, reputation := 9/10, lastSeen := ⟨1700000000, 0⟩ }

/-- A completed auction record for the C4 scenario store. -/
def exampleAuction (i bid : String) : AuctionRecord :=
  { id := i, poolId := "0xpool", winner := "0xwin", winningBid := bid,
    totalBids := 5, timestamp := "2023-11-14 22:13:20", status := "completed",
    blockNumber := 18500000 }

/-- The record population of the spec's example scenario: completed
auctions with winning bids 1.0, 2.0, 3.0 and two active operators. -/
def exampleStore : Store :=
  ⟨[exampleAuction "a1" "1.0", exampleAuction "a2" "2.0", exampleAuction "a3" "3.0"],
   [exampleOperator "op1", exampleOperator "op2"], []⟩

/-- A fixed request instant for the counterexample invocations
(2023-11-14 22:13:20 UTC, zero microseconds). -/
def now0 : PyDateTime := ⟨1700000000, 0⟩

/-- A concrete, in-range draw record for the detail endpoint: three
participants whose minutes-ago draws are 1, 3, 2 — so the emitted
timestamps are not ascending. -/
def cDetailDraws : DetailDraws :=
  { pool_id := 123456789
    winner := 987654321
    winning_bid_u := 2
    total_bids := 7
    num_participants := 3
    parts := fun i =>
      if i = 0 then ⟨111111111, 1, 1⟩
      else if i = 1 then ⟨222222222, 2, 3⟩
      else ⟨333333333, 3, 2⟩
    lvr_u := 5
    gas := 200000
    block := 18550000 }

/-- A create request whose `totalBids` is negative and whose required
fields are all present. -/
def negReq : AuctionCreateRequest :=
  { id := none
    poolId := some "0xpool"
    winner := some "0xwin"
    winningBid := some "1.0"
    totalBids := some (-5)
    timestamp := some "2023-11-14 22:13:20"
    status := none
    blockNumber := some 18550000 }

-- Sanity checks of the calendar arithmetic.
example : strftimeYmdHMS ⟨1700000000, 0⟩ = "2023-11-14 22:13:20" := by decide
example : isoformat ⟨0, 0⟩ = "1970-01-01T00:00:00" := by decide

theorem roundHalfEven_le (x : ℚ) : (roundHalfEven x : ℚ) ≤ x + 1/2 := by
  have h1 : (⌊x⌋ : ℚ) ≤ x := Int.floor_le x
  unfold roundHalfEven
  split_ifs with h3 h4 h5 <;> push_cast <;> linarith

theorem le_roundHalfEven (x : ℚ) : x - 1/2 ≤ (roundHalfEven x : ℚ) := by
  have h2 : x < ⌊x⌋ + 1 := Int.lt_floor_add_one x
  unfold roundHalfEven
  split_ifs with h3 h4 h5 <;> push_cast <;> push_cast at h2 <;> linarith

theorem roundHalfEven_intCast (n : ℤ) : roundHalfEven (n : ℚ) = n := by
  unfold roundHalfEven
  rw [Int.floor_intCast]
  rw [if_pos (by norm_num)]

theorem pyRound_eq_of_scaled (k : ℕ) (x : ℚ) (n : ℤ) (h : x * 10 ^ k = (n : ℚ)) :
    pyRound k x = (n : ℚ) / 10 ^ k := by
  rw [pyRound, h, roundHalfEven_intCast]

theorem pyFloatStr_eq_of_scaled (x : ℚ) (n : ℤ) (h : x * 1000 = (n : ℚ)) :
    pyFloatStr x = pyFloatStrZ n := by
  rw [pyFloatStr, h, roundHalfEven_intCast]

theorem pyRound2_le (x : ℚ) : pyRound 2 x ≤ x + 1/200 := by
  have h := roundHalfEven_le (x * 10 ^ 2)
  rw [pyRound, div_le_iff₀ (by norm_num : (0:ℚ) < 10 ^ 2)]
  nlinarith

theorem le_pyRound2 (x : ℚ) : x - 1/200 ≤ pyRound 2 x := by
  have h := le_roundHalfEven (x * 10 ^ 2)
  rw [pyRound, le_div_iff₀ (by norm_num : (0:ℚ) < 10 ^ 2)]
  nlinarith

theorem summaryMev_ge (d : SummaryDraws) (h : d.valid) : 49 ≤ summaryMev d := by
  obtain ⟨-, h50, -, -, -⟩ := h
  have h1 := le_pyRound2 d.total_mev_u
  unfold summaryMev
  linarith

theorem summaryMev_cSummary : summaryMev cSummaryDraws = 150 := by
  have h := pyRound_eq_of_scaled 2 (150 : ℚ) 15000 (by norm_num)
  show pyRound 2 (150 : ℚ) = 150
  rw [h]
  norm_num

theorem pyFloatStr_150 : pyFloatStr 150 = "150.0" := by
  rw [pyFloatStr_eq_of_scaled 150 150000 (by norm_num)]
  decide

theorem summaryMev_cSummary2 : summaryMev cSummaryDraws2 = 120 := by
  have h := pyRound_eq_of_scaled 2 (120 : ℚ) 12000 (by norm_num)
  show pyRound 2 (120 : ℚ) = 120
  rw [h]
  norm_num

theorem pyFloatStr_120 : pyFloatStr 120 = "120.0" := by
  rw [pyFloatStr_eq_of_scaled 120 120000 (by norm_num)]
  decide

theorem cDetailDraws_valid : cDetailDraws.valid := by
  refine ⟨by norm_num [cDetailDraws], by norm_num [cDetailDraws],
    by norm_num [cDetailDraws], by norm_num [cDetailDraws],
    by norm_num [cDetailDraws], by norm_num [cDetailDraws],
    by norm_num [cDetailDraws], by norm_num [cDetailDraws],
    by norm_num [cDetailDraws], by norm_num [cDetailDraws], ?_,
    by norm_num [cDetailDraws], by norm_num [cDetailDraws],
    by norm_num [cDetailDraws], by norm_num [cDetailDraws],
    by norm_num [cDetailDraws], by norm_num [cDetailDraws]⟩
  intro i hi
  have hi3 : i < 3 := hi
  interval_cases i <;> norm_num [cDetailDraws, PartDraw.valid]

/-- C1 counterexample: on the store with no records at all, the in-range
draws (3, 150.0, 12) produce a summary with `activeAuctions = 3`,
`totalMEVRecovered = "150.0"` and `avsOperatorCount = 12` — not the
zero-valued summary the claim promises. -/
theorem summary_empty_store_not_zero_ce :
    cSummaryDraws.valid ∧
    (get_auction_summary Store.empty cSummaryDraws).activeAuctions = 3 ∧
    (get_auction_summary Store.empty cSummaryDraws).totalMEVRecovered = "150.0" ∧
    (get_auction_summary Store.empty cSummaryDraws).avsOperatorCount = 12 ∧
    (3 : ℕ) ≠ 0 ∧ "150.0" ≠ "0" ∧ (12 : ℕ) ≠ 0 := by
  refine ⟨by norm_num [SummaryDraws.valid, cSummaryDraws], rfl, ?_, rfl,
    by decide, by decide, by decide⟩
  show pyFloatStr (summaryMev cSummaryDraws) = "150.0"
  rw [summaryMev_cSummary, pyFloatStr_150]

/-- C1 (amended): on the empty store the summary operation indeed never
fails, but it is not zero-valued: it is built from fresh random draws
the store never influences, so `activeAuctions` and `avsOperatorCount`
echo their draws (the latter at least 8) and the value behind
`totalMEVRecovered` is at least 49. -/
theorem summary_empty_store_mock (d : SummaryDraws) (h : d.valid) :
    get_auction_summary Store.empty d =
      { activeAuctions := d.active_auctions
        totalMEVRecovered := pyFloatStr (summaryMev d)
        totalLPRewards := pyFloatStr (summaryRewards d)
        avsOperatorCount := d.operator_count } ∧
    49 ≤ summaryMev d ∧
    8 ≤ d.operator_count :=
  ⟨rfl, summaryMev_ge d h, h.2.2.2.1⟩

/-- C1 witness: the amended statement at the draw record (2, 100, 9). -/
theorem summary_empty_store_mock_witness :
    SummaryDraws.valid ⟨2, 100, 9⟩ ∧
    (get_auction_summary Store.empty ⟨2, 100, 9⟩ =
      { activeAuctions := 2
        totalMEVRecovered := pyFloatStr (summaryMev ⟨2, 100, 9⟩)
        totalLPRewards := pyFloatStr (summaryRewards ⟨2, 100, 9⟩)
        avsOperatorCount := 9 } ∧
      49 ≤ summaryMev ⟨2, 100, 9⟩ ∧
      8 ≤ (9 : ℕ)) :=
  ⟨by norm_num [SummaryDraws.valid],
   summary_empty_store_mock ⟨2, 100, 9⟩ (by norm_num [SummaryDraws.valid])⟩

/-- C2 counterexample: the store is empty, so no record with id
`"0xmissing"` exists, yet the detail operation answers `Except.ok` with a
fully populated mock record echoing the requested id — it does not fail
with a 404 `NotFoundError`. -/
theorem detail_unknown_id_ok_ce :
    cDetailDraws.valid ∧
    Store.empty.auctions = [] ∧
    get_auction_details Store.empty "0xmissing" now0 cDetailDraws =
      Except.ok (detailResult Store.empty "0xmissing" now0 cDetailDraws) ∧
    (detailResult Store.empty "0xmissing" now0 cDetailDraws).id = "0xmissing" :=
  ⟨cDetailDraws_valid, rfl, rfl, rfl⟩

/-- C2 (amended): for every auction identifier — present in the store or
not — the detail operation succeeds, answering the mock detail record
that echoes the identifier; it never surfaces any HTTP error. -/
theorem detail_always_ok (db : Store) (auction_id : String) (now : PyDateTime)
    (d : DetailDraws) :
    get_auction_details db auction_id now d =
      Except.ok (detailResult db auction_id now d) ∧
    (detailResult db auction_id now d).id = auction_id ∧
    ∀ e : HTTPError, get_auction_details db auction_id now d ≠ Except.error e :=
  ⟨rfl, rfl, fun _ h => Except.noConfusion h⟩

/-- C3: for every store population (the store is an arbitrary `db`,
including the empty one) and every valid set of random draws, the
summary's `totalLPRewards` is the string of `round(0.85 * totalMEV, 2)`
and its numeric value never exceeds the numeric value behind
`totalMEVRecovered`. -/
theorem summary_lp_rewards_le_mev (db : Store) (d : SummaryDraws) (h : d.valid) :
    (get_auction_summary db d).totalMEVRecovered = pyFloatStr (summaryMev d) ∧
    (get_auction_summary db d).totalLPRewards = pyFloatStr (summaryRewards d) ∧
    summaryRewards d = pyRound 2 (summaryMev d * (85/100)) ∧
    summaryRewards d ≤ summaryMev d := by
  refine ⟨rfl, rfl, rfl, ?_⟩
  have hm := summaryMev_ge d h
  have h2 := pyRound2_le (summaryMev d * (85/100))
  unfold summaryRewards
  linarith

/-- C3 witness: the inequality at the draw record (0, 80, 8) on the empty
store. -/
theorem summary_lp_rewards_le_mev_witness :
    SummaryDraws.valid ⟨0, 80, 8⟩ ∧
    ((get_auction_summary Store.empty ⟨0, 80, 8⟩).totalMEVRecovered =
        pyFloatStr (summaryMev ⟨0, 80, 8⟩) ∧
      (get_auction_summary Store.empty ⟨0, 80, 8⟩).totalLPRewards =
        pyFloatStr (summaryRewards ⟨0, 80, 8⟩) ∧
      summaryRewards ⟨0, 80, 8⟩ = pyRound 2 (summaryMev ⟨0, 80, 8⟩ * (85/100)) ∧
      summaryRewards ⟨0, 80, 8⟩ ≤ summaryMev ⟨0, 80, 8⟩) :=
  ⟨by norm_num [SummaryDraws.valid],
   summary_lp_rewards_le_mev Store.empty ⟨0, 80, 8⟩ (by norm_num [SummaryDraws.valid])⟩

/-- C4 counterexample: with the store holding exactly the scenario's
records (winning bids 1.0, 2.0, 3.0, all completed, two active
operators), the in-range draws (1, 120.0, 10) yield
`totalMEVRecovered = "120.0"`, `avsOperatorCount = 10` and
`activeAuctions = 1` — not the claimed 0 / "6.00" / "5.10" / 2. -/
theorem summary_example_store_ce :
    cSummaryDraws2.valid ∧
    (get_auction_summary exampleStore cSummaryDraws2).totalMEVRecovered = "120.0" ∧
    "120.0" ≠ "6.00" ∧
    (get_auction_summary exampleStore cSummaryDraws2).avsOperatorCount = 10 ∧
    (10 : ℕ) ≠ 2 ∧
    (get_auction_summary exampleStore cSummaryDraws2).activeAuctions = 1 := by
  refine ⟨by norm_num [SummaryDraws.valid, cSummaryDraws2], ?_,
    by decide, rfl, by decide, rfl⟩
  show pyFloatStr (summaryMev cSummaryDraws2) = "120.0"
  rw [summaryMev_cSummary2, pyFloatStr_120]

/-- C4 (amended): on the scenario store the summary ignores the stored
records entirely — it coincides with the summary on the empty store for
the same draws, and the value behind `totalMEVRecovered` is at least 49
(so it can never be the scenario's 6.00). -/
theorem summary_ignores_example_store (d : SummaryDraws) (h : d.valid) :
    get_auction_summary exampleStore d = get_auction_summary Store.empty d ∧
    (get_auction_summary exampleStore d).totalMEVRecovered = pyFloatStr (summaryMev d) ∧
    49 ≤ summaryMev d :=
  ⟨rfl, rfl, summaryMev_ge d h⟩

/-- C4 witness: the amended statement at the draw record (0, 60, 15). -/
theorem summary_ignores_example_store_witness :
    SummaryDraws.valid ⟨0, 60, 15⟩ ∧
    (get_auction_summary exampleStore ⟨0, 60, 15⟩ =
        get_auction_summary Store.empty ⟨0, 60, 15⟩ ∧
      (get_auction_summary exampleStore ⟨0, 60, 15⟩).totalMEVRecovered =
        pyFloatStr (summaryMev ⟨0, 60, 15⟩) ∧
      49 ≤ summaryMev ⟨0, 60, 15⟩) :=
  ⟨by norm_num [SummaryDraws.valid],
   summary_ignores_example_store ⟨0, 60, 15⟩ (by norm_num [SummaryDraws.valid])⟩

/-- C5: the recent-auctions listing never exceeds ten entries and its
timestamp strings are pairwise non-increasing (the source sorts by the
timestamp key with `reverse=True`). -/
theorem recent_auctions_bounded_sorted (db : Store) (now : PyDateTime)
    (dr : ℕ → RecentDraw) :
    (get_recent_auctions db now dr).length ≤ 10 ∧
    (get_recent_auctions db now dr).Pairwise
      (fun a b => b.timestamp ≤ a.timestamp) := by
  constructor
  · simp [get_recent_auctions]
  · have hs := @List.sorted_mergeSort AuctionRecord
      (fun a b : AuctionRecord => decide (b.timestamp ≤ a.timestamp))
      (fun a b c h1 h2 => by
        simp only [decide_eq_true_eq] at *
        exact le_trans h2 h1)
      (fun a b => by
        simp only [Bool.or_eq_true, decide_eq_true_eq]
        exact le_total b.timestamp a.timestamp)
      ((List.range 10).map fun i => mkRecentAuction now (dr i))
    refine List.Pairwise.imp ?_ hs
    intro a b hab
    simpa using hab

/-- C6 counterexample: posting a record with `totalBids = -5` is not
rejected — the handler acknowledges with 201's success body and the
auctions collection grows by one, persisting the negative record. -/
theorem create_negative_bids_accepted_ce :
    negReq.totalBids = some (-5) ∧
    (create_auction Store.empty "uuid-1" "mongo-1" negReq).2 =
      Except.ok { id := "mongo-1", message := "Auction created successfully" } ∧
    (create_auction Store.empty "uuid-1" "mongo-1" negReq).1.auctions.length =
      Store.empty.auctions.length + 1 ∧
    (create_auction Store.empty "uuid-1" "mongo-1" negReq).1.auctions.map
        AuctionRecord.totalBids = [-5] :=
  ⟨rfl, rfl, rfl, rfl⟩

/-- C6 (amended): validation of a create request checks only that the six
fields without defaults are present; whenever they are — whatever the
value of `totalBids`, negative included — the request succeeds and
exactly one record is appended to the store. -/
theorem create_auction_only_presence_checked (db : Store) (u m : String)
    (req : AuctionCreateRequest)
    (hp : req.poolId.isSome = true) (hw : req.winner.isSome = true)
    (hwb : req.winningBid.isSome = true) (htb : req.totalBids.isSome = true)
    (hts : req.timestamp.isSome = true) (hbn : req.blockNumber.isSome = true) :
    (create_auction db u m req).2 =
      Except.ok { id := m, message := "Auction created successfully" } ∧
    (create_auction db u m req).1.auctions.length = db.auctions.length + 1 := by
  obtain ⟨p, hp⟩ := Option.isSome_iff_exists.mp hp
  obtain ⟨w, hw⟩ := Option.isSome_iff_exists.mp hw
  obtain ⟨wb, hwb⟩ := Option.isSome_iff_exists.mp hwb
  obtain ⟨tb, htb⟩ := Option.isSome_iff_exists.mp htb
  obtain ⟨ts, hts⟩ := Option.isSome_iff_exists.mp hts
  obtain ⟨bn, hbn⟩ := Option.isSome_iff_exists.mp hbn
  simp [create_auction, parseAuctionRecord, hp, hw, hwb, htb, hts, hbn]

/-- C6 witness: the amended statement at the negative-bids request. -/
theorem create_auction_only_presence_checked_witness :
    (negReq.poolId.isSome = true ∧ negReq.winner.isSome = true ∧
      negReq.winningBid.isSome = true ∧ negReq.totalBids.isSome = true ∧
      negReq.timestamp.isSome = true ∧ negReq.blockNumber.isSome = true) ∧
    ((create_auction Store.empty "uuid-1" "mongo-1" negReq).2 =
      Except.ok { id := "mongo-1", message := "Auction created successfully" } ∧
    (create_auction Store.empty "uuid-1" "mongo-1" negReq).1.auctions.length =
      Store.empty.auctions.length + 1) :=
  ⟨⟨rfl, rfl, rfl, rfl, rfl, rfl⟩,
   create_auction_only_presence_checked Store.empty "uuid-1" "mongo-1" negReq
     rfl rfl rfl rfl rfl rfl⟩

/-- C7 counterexample: two consecutive summary reads against the same
unchanged (empty) store, each with in-range draws, disagree — the second
invocation's fresh draws change the response. -/
theorem reads_not_deterministic_ce :
    SummaryDraws.valid ⟨1, 100, 9⟩ ∧
    SummaryDraws.valid ⟨2, 100, 9⟩ ∧
    get_auction_summary Store.empty ⟨1, 100, 9⟩ ≠
      get_auction_summary Store.empty ⟨2, 100, 9⟩ := by
  refine ⟨by norm_num [SummaryDraws.valid], by norm_num [SummaryDraws.valid], ?_⟩
  intro h
  have h1 := congrArg AuctionSummary.activeAuctions h
  simp [get_auction_summary] at h1

/-- C7 (amended): each list/summary read is a function of its per-request
random draws alone — the store is never consulted, so two invocations
coincide exactly when their draws (and request instant) coincide, not
merely when the store is unchanged. -/
theorem read_endpoints_ignore_store (db1 db2 : Store) (now : PyDateTime)
    (ds : SummaryDraws) (dr : ℕ → RecentDraw) (dp : ℕ → PoolDraw)
    (dO : ℕ → OpDraw) :
    get_auction_summary db1 ds = get_auction_summary db2 ds ∧
    get_recent_auctions db1 now dr = get_recent_auctions db2 now dr ∧
    get_pool_performance db1 now dp = get_pool_performance db2 now dp ∧
    get_avs_operators db1 now dO = get_avs_operators db2 now dO :=
  ⟨rfl, rfl, rfl, rfl⟩

/-- C8 counterexample: at the concrete draws above, the participant
timestamps come out in generation order 22:12:20, 22:10:20, 22:11:20 —
the first pair already violates ascending order, so the list is not
sorted by submission timestamp. -/
theorem detail_participants_not_sorted_ce :
    cDetailDraws.valid ∧
    ((detailResult Store.empty "0xabc" now0 cDetailDraws).participants.map
        Participant.timestamp) =
      ["2023-11-14T22:12:20", "2023-11-14T22:10:20", "2023-11-14T22:11:20"] ∧
    ¬ (("2023-11-14T22:12:20" : String) ≤ "2023-11-14T22:10:20") := by
  refine ⟨cDetailDraws_valid, by decide, ?_⟩
  rw [String.le_iff_toList_le]
  decide

/-- C8 (amended): the participants list is emitted exactly in generation
order — no sorting by timestamp (nor any address tie-break) is applied —
and under valid draws it holds between 3 and 8 entries. -/
theorem detail_participants_generation_order (db : Store) (auction_id : String)
    (now : PyDateTime) (d : DetailDraws) (h : d.valid) :
    (detailResult db auction_id now d).participants =
      (List.range d.num_participants).map (fun i => mkParticipant now (d.parts i)) ∧
    3 ≤ (detailResult db auction_id now d).participants.length ∧
    (detailResult db auction_id now d).participants.length ≤ 8 := by
  obtain ⟨-, -, -, -, -, -, -, -, h3, h8, -, -, -, -, -, -, -⟩ := h
  refine ⟨rfl, ?_, ?_⟩ <;> simp [detailResult] <;> omega

/-- C8 witness: the amended statement at the concrete detail draws. -/
theorem detail_participants_generation_order_witness :
    cDetailDraws.valid ∧
    ((detailResult Store.empty "0xabc" now0 cDetailDraws).participants =
      (List.range cDetailDraws.num_participants).map
        (fun i => mkParticipant now0 (cDetailDraws.parts i)) ∧
    3 ≤ (detailResult Store.empty "0xabc" now0 cDetailDraws).participants.length ∧
    (detailResult Store.empty "0xabc" now0 cDetailDraws).participants.length ≤ 8) :=
  ⟨cDetailDraws_valid,
   detail_participants_generation_order Store.empty "0xabc" now0 cDetailDraws
     cDetailDraws_valid⟩

/-- C9: the health endpoint answers `healthy` with the fixed services
object on every request, and the answer does not depend on the store. -/
theorem health_check_constant (db db2 : Store) (t : PyDateTime) :
    health_check db t =
      { status := "healthy"
        timestamp := isoformat t
        version := "1.0.0"
        services := { database := "connected", avs := "operational", price_oracle := "active" } } ∧
    health_check db t = health_check db2 t :=
  ⟨rfl, rfl⟩

/-- C10: the recent-auctions listing has exactly ten entries on every
invocation, and the result is independent of the store contents — the
records are generated from the request's draws, not read from storage. -/
theorem recent_auctions_always_ten (db db2 : Store) (now : PyDateTime)
    (dr : ℕ → RecentDraw) :
    (get_recent_auctions db now dr).length = 10 ∧
    get_recent_auctions db now dr = get_recent_auctions db2 now dr := by
  refine ⟨?_, rfl⟩
  simp [get_recent_auctions]
